import Mathlib

/-!
Shallow embedding of `internal/provider/resource_workflow_state.go`: the
Terraform resource lifecycle handler for a Linear team workflow state.
The remote GraphQL API is an opaque collaborator; we model it as a record of
functions and record every remote call an operation performs.  The local
`position` attribute is an arbitrary-precision number (`types.Number`,
backed by `big.Float`); we represent its values as rationals, and the
narrowing `big.Float.Float64` (a float64 together with an accuracy result)
as an explicit function parameter `float64 : ℚ → ℚ × Accuracy`.
-/

/-- Result of `big.Float.Float64`'s second component (`big.Accuracy` in Go). -/
inductive Accuracy where
  | below
  | exact
  | above
deriving DecidableEq, Repr

/-- The typed record held in the plan/state store
(`WorkflowStateResourceModel` in the source, field for field;
`types.String`/`types.Number` values are represented by their contents). -/
structure WorkflowStateResourceModel where
  id : String
  name : String
  type : String
  description : Option String
  color : String
  position : ℚ
  teamId : String
deriving DecidableEq, Repr

/-- Input of the remote create mutation (`WorkflowStateCreateInput`):
name, type, position, color, description, team id — and no id field. -/
structure WorkflowStateCreateInput where
  name : String
  type : String
  position : ℚ
  color : String
  description : Option String
  teamId : String
deriving DecidableEq, Repr

/-- The workflow state embedded in the create response
(`response.WorkflowStateCreate.WorkflowState`): the fields the source reads. -/
structure CreatedWorkflowState where
  id : String
  name : String
  type : String
  position : ℚ
  color : String
  description : Option String
deriving DecidableEq, Repr

/-- Payload of the create response (`response.WorkflowStateCreate`). -/
structure WorkflowStateCreatePayload where
  workflowState : CreatedWorkflowState
deriving DecidableEq, Repr

/-- Response of `createWorkflowState`. -/
structure CreateWorkflowStateResponse where
  workflowStateCreate : WorkflowStateCreatePayload
deriving DecidableEq, Repr

/-- Nested team reference in the read response (`workflowState.Team`). -/
structure TeamRef where
  id : String
deriving DecidableEq, Repr

/-- The workflow state in the read response (`response.WorkflowState`):
the source reads name, type, position, color, team.id and description. -/
structure ReadWorkflowState where
  name : String
  type : String
  position : ℚ
  color : String
  description : Option String
  team : TeamRef
deriving DecidableEq, Repr

/-- Response of `getWorkflowState`. -/
structure GetWorkflowStateResponse where
  workflowState : ReadWorkflowState
deriving DecidableEq, Repr

/-- Input of the remote update mutation (`WorkflowStateUpdateInput`):
exactly name, color, description and position — no type, no team id. -/
structure WorkflowStateUpdateInput where
  name : String
  color : String
  description : Option String
  position : ℚ
deriving DecidableEq, Repr

/-- The workflow state in the update response
(`response.WorkflowStateUpdate.WorkflowState`): the fields the source reads. -/
structure UpdatedWorkflowState where
  name : String
  position : ℚ
  color : String
  description : Option String
deriving DecidableEq, Repr

/-- Payload of the update response (`response.WorkflowStateUpdate`). -/
structure WorkflowStateUpdatePayload where
  workflowState : UpdatedWorkflowState
deriving DecidableEq, Repr

/-- Response of `updateWorkflowState`. -/
structure UpdateWorkflowStateResponse where
  workflowStateUpdate : WorkflowStateUpdatePayload
deriving DecidableEq, Repr

/-- One node of the find query response (`response.WorkflowStates.Nodes[i]`). -/
structure WorkflowStateNode where
  id : String
deriving DecidableEq, Repr

/-- Node list of the find query response (`response.WorkflowStates`). -/
structure WorkflowStatesConnection where
  nodes : List WorkflowStateNode
deriving DecidableEq, Repr

/-- Response of `findWorkflowState`. -/
structure FindWorkflowStatesResponse where
  workflowStates : WorkflowStatesConnection
deriving DecidableEq, Repr

/-- The opaque remote API client: the five generated GraphQL operations the
handler invokes, each returning a response or an error string. -/
structure RemoteApi where
  createWorkflowState : WorkflowStateCreateInput → Except String CreateWorkflowStateResponse
  getWorkflowState : String → Except String GetWorkflowStateResponse
  updateWorkflowState : WorkflowStateUpdateInput → String → Except String UpdateWorkflowStateResponse
  deleteWorkflowState : String → Except String Unit
  findWorkflowState : String → String → Except String FindWorkflowStatesResponse

/-- A remote call made by a handler, recorded with its arguments. -/
inductive RemoteCall where
  | createCall (input : WorkflowStateCreateInput)
  | getCall (id : String)
  | updateCall (input : WorkflowStateUpdateInput) (id : String)
  | deleteCall (id : String)
  | findCall (name : String) (teamKey : String)
deriving DecidableEq, Repr

/-- A user-visible diagnostic.  `clientError` is `AddError("Client Error", …)`,
`importFormatError` is `AddError("Unexpected Import Identifier", …)`, and
`schemaValidationError` is an error produced by a declarative schema
validator before the handler runs. -/
inductive Diag where
  | clientError (detail : String)
  | importFormatError (detail : String)
  | schemaValidationError (attr : String) (detail : String)
deriving DecidableEq, Repr

/-- Whether a diagnostic comes from declarative schema validation. -/
def Diag.isSchemaValidation : Diag → Bool
  | .schemaValidationError _ _ => true
  | _ => false

/-- Go `strings.Split` semantics for a one-character separator, over the
character list: splits around each instance of the separator; an input with
no separator yields one group, and empty groups are kept. -/
def splitOnChar (sep : Char) : List Char → List (List Char)
  | [] => [[]]
  | c :: rest =>
    if c = sep then [] :: splitOnChar sep rest
    else
      match splitOnChar sep rest with
      | [] => [[c]]
      | g :: gs => (c :: g) :: gs

/-- Go `strings.Split(s, sep)` for a one-character separator. -/
def stringsSplit (s : String) (sep : Char) : List String :=
  (splitOnChar sep s.data).map (fun cs => String.mk cs)

/-- Outcome of one lifecycle operation: the diagnostics it appended, the
stored state after the operation (`none` = no resource in state), and the
remote calls it made, in order. -/
structure OpResult where
  diagnostics : List Diag
  state : Option WorkflowStateResourceModel
  calls : List RemoteCall
deriving DecidableEq, Repr

namespace WorkflowStateResource

/-- Embeds `position, _ := data.Position.ValueBigFloat().Float64()` followed by the
`WorkflowStateCreateInput{…}` literal in `Create`: the accuracy result of the
narrowing is discarded. -/
def mkCreateInput (float64 : ℚ → ℚ × Accuracy) (data : WorkflowStateResourceModel) :
    WorkflowStateCreateInput :=
  { name := data.name
    type := data.type
    position := (float64 data.position).1
    color := data.color
    description := data.description
    teamId := data.teamId }

/-- Handler `Create`: builds the create input from the plan, invokes the remote
create, and on success writes the plan record with id, name, type, position,
color and description refreshed from the response; on error appends a single
Client Error diagnostic and leaves the stored state as it was (`prior`). -/
def Create (float64 : ℚ → ℚ × Accuracy) (api : RemoteApi)
    (data : WorkflowStateResourceModel) (prior : Option WorkflowStateResourceModel) : OpResult :=
  let input := mkCreateInput float64 data
  match api.createWorkflowState input with
  | .error err =>
    { diagnostics := [.clientError ("Unable to create workflow state, got error: " ++ err)]
      state := prior
      calls := [.createCall input] }
  | .ok response =>
    let workflowState := response.workflowStateCreate.workflowState
    { diagnostics := []
      state := some { data with
        id := workflowState.id
        name := workflowState.name
        type := workflowState.type
        position := workflowState.position
        color := workflowState.color
        description := workflowState.description }
      calls := [.createCall input] }

/-- Handler `Read`: invokes the remote read with the current id and on success
overwrites name, type, position, color, team id (from the response's nested
team reference) and description; on error appends a single Client Error
diagnostic and leaves the stored state unchanged. -/
def Read (api : RemoteApi) (data : WorkflowStateResourceModel) : OpResult :=
  match api.getWorkflowState data.id with
  | .error err =>
    { diagnostics := [.clientError ("Unable to read workflow state, got error: " ++ err)]
      state := some data
      calls := [.getCall data.id] }
  | .ok response =>
    let workflowState := response.workflowState
    { diagnostics := []
      state := some { data with
        name := workflowState.name
        type := workflowState.type
        position := workflowState.position
        color := workflowState.color
        teamId := workflowState.team.id
        description := workflowState.description }
      calls := [.getCall data.id] }

/-- The `WorkflowStateUpdateInput{…}` literal in `Update`: name, color,
description and the narrowed position — type and team id are not sent. -/
def mkUpdateInput (float64 : ℚ → ℚ × Accuracy) (data : WorkflowStateResourceModel) :
    WorkflowStateUpdateInput :=
  { name := data.name
    color := data.color
    description := data.description
    position := (float64 data.position).1 }

/-- Handler `Update`: sends the update input to the remote update-by-id call and on
success refreshes name, position, color and description from the response
(type and team id stay as planned); on error appends a single Client Error
diagnostic and leaves the stored state as it was (`prior`). -/
def Update (float64 : ℚ → ℚ × Accuracy) (api : RemoteApi)
    (data : WorkflowStateResourceModel) (prior : Option WorkflowStateResourceModel) : OpResult :=
  let input := mkUpdateInput float64 data
  match api.updateWorkflowState input data.id with
  | .error err =>
    { diagnostics := [.clientError ("Unable to update workflow state, got error: " ++ err)]
      state := prior
      calls := [.updateCall input data.id] }
  | .ok response =>
    let workflowState := response.workflowStateUpdate.workflowState
    { diagnostics := []
      state := some { data with
        name := workflowState.name
        position := workflowState.position
        color := workflowState.color
        description := workflowState.description }
      calls := [.updateCall input data.id] }

/-- Handler `Delete`: invokes the remote delete by id; on error appends a single
Client Error diagnostic and leaves the stored state unchanged; on success the
response body is not consumed and the framework removes the resource. -/
def Delete (api : RemoteApi) (data : WorkflowStateResourceModel) : OpResult :=
  match api.deleteWorkflowState data.id with
  | .error err =>
    { diagnostics := [.clientError ("Unable to delete workflow state, got error: " ++ err)]
      state := some data
      calls := [.deleteCall data.id] }
  | .ok _ =>
    { diagnostics := []
      state := none
      calls := [.deleteCall data.id] }

/-- Outcome of `ImportState`: diagnostics, the state attributes written
(name/value pairs, in order), and the remote calls made. -/
structure ImportResult where
  diagnostics : List Diag
  attributesSet : List (String × String)
  calls : List RemoteCall
deriving DecidableEq, Repr

/-- The single `AddError("Unexpected Import Identifier", …)` site of
`ImportState`, reached before any remote call. -/
def importFormatResult (reqId : String) : ImportResult :=
  { diagnostics := [.importFormatError
      ("Expected import identifier with format: workflow_state_name:team_key. Got: " ++ reqId)]
    attributesSet := []
    calls := [] }

/-- Handler `ImportState`: splits the identifier on `":"` (`strings.Split`); unless
that yields exactly two non-empty parts it fails with the identifier-format
error before any remote call; otherwise it runs the find query and fails with
a Client Error unless the call succeeds with exactly one node, in which case
it writes only the `id` attribute, set to that node's id. -/
def ImportState (api : RemoteApi) (reqId : String) : ImportResult :=
  match stringsSplit reqId ':' with
  | [p0, p1] =>
    if p0 = "" ∨ p1 = "" then importFormatResult reqId
    else
      match api.findWorkflowState p0 p1 with
      | .error err =>
        { diagnostics := [.clientError ("Unable to import workflow state, got error: " ++ err)]
          attributesSet := []
          calls := [.findCall p0 p1] }
      | .ok response =>
        match response.workflowStates.nodes with
        | [node] =>
          { diagnostics := []
            attributesSet := [("id", node.id)]
            calls := [.findCall p0 p1] }
        | _ =>
          { diagnostics := [.clientError "Unable to import workflow state, got error: "]
            attributesSet := []
            calls := [.findCall p0 p1] }
  | _ => importFormatResult reqId

end WorkflowStateResource

/-- A plan modifier attached to an attribute in the schema. -/
inductive PlanModifier where
  | useStateForUnknown
  | requiresReplace
deriving DecidableEq, Repr

/-- A declarative string validator attached to an attribute in the schema.
A regex is represented by its match predicate together with its message. -/
inductive StringValidatorKind where
  | utf8LengthAtLeast (n : Nat)
  | oneOf (values : List String)
  | regexMatches (accepts : String → Bool) (message : String)

/-- One attribute of the resource schema: the flags, plan modifiers and
validators the source declares. -/
structure Attribute where
  required : Bool := false
  computed : Bool := false
  optional : Bool := false
  planModifiers : List PlanModifier := []
  validators : List StringValidatorKind := []

/-- Whether the character is a hexadecimal digit. -/
def isHexDigit (c : Char) : Bool :=
  c.isDigit || (97 ≤ c.toNat && c.toNat ≤ 102) || (65 ≤ c.toNat && c.toNat ≤ 70)

/-- Modelled from the spec: `colorRegex()` is defined outside the file under
src; the spec says color is "text matching a hex-color pattern" and that
`"blue"` must be rejected.  Modelled as `#` followed by six (or three)
hexadecimal digits. -/
def colorRegexMatches (s : String) : Bool :=
  match s.data with
  | '#' :: rest => (rest.length == 6 || rest.length == 3) && rest.all isHexDigit
  | _ => false

/-- Modelled from the spec: `uuidRegex()` is defined outside the file under
src; the spec says team_id "must match a UUID pattern" and that
`"not-a-uuid"` must be rejected.  Modelled as five dash-separated groups of
hexadecimal digits with lengths 8, 4, 4, 4 and 12. -/
def uuidRegexMatches (s : String) : Bool :=
  match (splitOnChar '-' s.data).map List.length, splitOnChar '-' s.data with
  | [8, 4, 4, 4, 12], groups => groups.all (fun g => g.all isHexDigit)
  | _, _ => false

namespace WorkflowStateResource

/-- The declared resource schema (`Schema` in the source): attribute name to
flags, plan modifiers and validators, in declaration order. -/
def Schema : List (String × Attribute) :=
  [("id", { computed := true, planModifiers := [.useStateForUnknown] }),
   ("name", { required := true, validators := [.utf8LengthAtLeast 1] }),
   ("type", { required := true, planModifiers := [.requiresReplace],
              validators := [.oneOf ["triage", "backlog", "unstarted", "started",
                                     "completed", "canceled"]] }),
   ("position", { required := true }),
   ("color", { required := true,
               validators := [.regexMatches colorRegexMatches "must be a hex color"] }),
   ("description", { optional := true }),
   ("team_id", { required := true, planModifiers := [.requiresReplace],
                 validators := [.regexMatches uuidRegexMatches "must be an uuid"] })]

/-- The plan modifiers the schema declares for an attribute. -/
def attrPlanModifiers (attr : String) : List PlanModifier :=
  ((Schema.lookup attr).map Attribute.planModifiers).getD []

/-- The validators the schema declares for an attribute. -/
def attrValidators (attr : String) : List StringValidatorKind :=
  ((Schema.lookup attr).map Attribute.validators).getD []

/-- Modelled from the spec: the validator implementations live in the host
framework's validator library, not under src.  `utf8LengthAtLeast n` rejects
strings of fewer than `n` characters, `oneOf` rejects values outside the
list, `regexMatches` rejects values its predicate refuses. -/
def runValidator (attr : String) (value : String) : StringValidatorKind → List Diag
  | .utf8LengthAtLeast n =>
    if n ≤ value.length then [] else [.schemaValidationError attr "string length below minimum"]
  | .oneOf values =>
    if values.contains value then [] else [.schemaValidationError attr "value must be one of"]
  | .regexMatches accepts message =>
    if accepts value then [] else [.schemaValidationError attr message]

/-- Run one attribute's declared validators on its configured value. -/
def validateAttr (attr : String) (value : String) : List Diag :=
  ((attrValidators attr).map (runValidator attr value)).flatten

/-- Modelled from the spec: the host framework applies the declarative
validators of every string attribute to the configured value; description is
optional and unvalidated, and id is computed, not configured. -/
def validateConfig (data : WorkflowStateResourceModel) : List Diag :=
  validateAttr "name" data.name ++ validateAttr "type" data.type ++
  validateAttr "color" data.color ++ validateAttr "team_id" data.teamId

/-- Modelled from the spec: declarative validation runs "before any remote
call" — a config rejected by a validator never reaches the handler. -/
def applyCreate (float64 : ℚ → ℚ × Accuracy) (api : RemoteApi)
    (data : WorkflowStateResourceModel) (prior : Option WorkflowStateResourceModel) : OpResult :=
  match validateConfig data with
  | [] => Create float64 api data prior
  | diags => { diagnostics := diags, state := prior, calls := [] }

end WorkflowStateResource

/-! ### Concrete fixtures used by witnesses -/

/-- A narrowing for inputs already representable as float64: the identity
with an exact accuracy result. -/
def f64exact : ℚ → ℚ × Accuracy := fun q => (q, .exact)

/-- A remote that fails every call. -/
def errApi : RemoteApi where
  createWorkflowState := fun _ => .error "boom"
  getWorkflowState := fun _ => .error "boom"
  updateWorkflowState := fun _ _ => .error "boom"
  deleteWorkflowState := fun _ => .error "boom"
  findWorkflowState := fun _ _ => .error "boom"

/-- A sample stored/planned record with valid attribute values. -/
def m0 : WorkflowStateResourceModel where
  id := "wsid-0"
  name := "Done"
  type := "completed"
  description := some "terminal state"
  color := "#00ff00"
  position := 2
  teamId := "123e4567-e89b-12d3-a456-426614174000"

/-- A remote whose find query returns exactly one node, `ws1`. -/
def oneNodeApi : RemoteApi where
  createWorkflowState := fun _ => .error "boom"
  getWorkflowState := fun _ => .error "boom"
  updateWorkflowState := fun _ _ => .error "boom"
  deleteWorkflowState := fun _ => .error "boom"
  findWorkflowState := fun _ _ => .ok ⟨⟨[⟨"ws1"⟩]⟩⟩

namespace WorkflowStateResource

/-- Behaviour of `ImportState` on an identifier that splits into two non-empty parts:
the residual behaviour after the format check passes. -/
theorem importState_after_format_check (api : RemoteApi) (reqId p0 p1 : String)
    (hsplit : stringsSplit reqId ':' = [p0, p1]) (h0 : p0 ≠ "") (h1 : p1 ≠ "") :
    ImportState api reqId =
      match api.findWorkflowState p0 p1 with
      | .error err =>
        { diagnostics := [.clientError ("Unable to import workflow state, got error: " ++ err)]
          attributesSet := []
          calls := [.findCall p0 p1] }
      | .ok response =>
        match response.workflowStates.nodes with
        | [node] =>
          { diagnostics := []
            attributesSet := [("id", node.id)]
            calls := [.findCall p0 p1] }
        | _ =>
          { diagnostics := [.clientError "Unable to import workflow state, got error: "]
            attributesSet := []
            calls := [.findCall p0 p1] } := by
  unfold ImportState
  rw [hsplit]
  simp [h0, h1]

/-- C1: when the import identifier splits on `:` into exactly two non-empty
parts, Import fails with a ClientError unless the find query returns exactly
one match (a remote error, zero matches, or two-or-more matches all fail),
and when exactly one match is returned the only state attribute written is
`id`, set to that match's id. -/
theorem importState_requires_unique_match (api : RemoteApi) (reqId p0 p1 : String)
    (hsplit : stringsSplit reqId ':' = [p0, p1]) (h0 : p0 ≠ "") (h1 : p1 ≠ "") :
    (∀ err, api.findWorkflowState p0 p1 = .error err →
      (ImportState api reqId).diagnostics =
        [.clientError ("Unable to import workflow state, got error: " ++ err)] ∧
      (ImportState api reqId).attributesSet = []) ∧
    (∀ response, api.findWorkflowState p0 p1 = .ok response →
      (response.workflowStates.nodes.length ≠ 1 →
        (ImportState api reqId).diagnostics =
          [.clientError "Unable to import workflow state, got error: "] ∧
        (ImportState api reqId).attributesSet = []) ∧
      (∀ node, response.workflowStates.nodes = [node] →
        (ImportState api reqId).diagnostics = [] ∧
        (ImportState api reqId).attributesSet = [("id", node.id)] ∧
        (ImportState api reqId).calls = [.findCall p0 p1])) := by
  have hbase := importState_after_format_check api reqId p0 p1 hsplit h0 h1
  refine ⟨?_, ?_⟩
  · intro err hfind
    rw [hbase, hfind]
    exact ⟨rfl, rfl⟩
  · intro response hfind
    refine ⟨?_, ?_⟩
    · intro hlen
      rcases hnodes : response.workflowStates.nodes with _ | ⟨n1, _ | ⟨n2, rest⟩⟩
      · rw [hbase, hfind]
        simp [hnodes]
      · exact absurd (by rw [hnodes]; rfl) hlen
      · rw [hbase, hfind]
        simp [hnodes]
    · intro node hnodes
      rw [hbase, hfind]
      simp [hnodes]

/-- Witness for C1: importing `"Done:ENG"` against a remote returning the
single node `ws1` writes only the id attribute, set to `ws1`. -/
theorem importState_requires_unique_match_witness :
    (ImportState oneNodeApi "Done:ENG").diagnostics = [] ∧
    (ImportState oneNodeApi "Done:ENG").attributesSet = [("id", "ws1")] ∧
    (ImportState oneNodeApi "Done:ENG").calls = [.findCall "Done" "ENG"] :=
  ((importState_requires_unique_match oneNodeApi "Done:ENG" "Done" "ENG"
      (by decide) (by decide) (by decide)).2 ⟨⟨[⟨"ws1"⟩]⟩⟩ rfl).2 ⟨"ws1"⟩ rfl

/-- C2: when splitting the import identifier on `:` does not yield exactly
two non-empty parts, Import fails with the identifier-format error, writes
no attribute and makes no remote call. -/
theorem importState_format_error (api : RemoteApi) (reqId : String)
    (h : ∀ p0 p1, stringsSplit reqId ':' = [p0, p1] → p0 = "" ∨ p1 = "") :
    (ImportState api reqId).diagnostics =
      [.importFormatError
        ("Expected import identifier with format: workflow_state_name:team_key. Got: " ++ reqId)] ∧
    (ImportState api reqId).attributesSet = [] ∧
    (ImportState api reqId).calls = [] := by
  unfold ImportState
  split
  · next p0 p1 heq =>
      rw [if_pos (h p0 p1 heq)]
      exact ⟨rfl, rfl, rfl⟩
  · exact ⟨rfl, rfl, rfl⟩

/-- Witness for C2: importing `"DoneENG"` (no separator) fails with the
identifier-format error and no remote call. -/
theorem importState_format_error_witness :
    (ImportState errApi "DoneENG").diagnostics =
      [.importFormatError
        ("Expected import identifier with format: workflow_state_name:team_key. Got: " ++ "DoneENG")] ∧
    (ImportState errApi "DoneENG").attributesSet = [] ∧
    (ImportState errApi "DoneENG").calls = [] :=
  importState_format_error errApi "DoneENG" (by
    intro p0 p1 hsplit
    rw [show stringsSplit "DoneENG" ':' = ["DoneENG"] from by decide] at hsplit
    simp at hsplit)

end WorkflowStateResource

/-- A fixed read response used by witnesses. -/
def getResponse1 : GetWorkflowStateResponse :=
  ⟨⟨"In Review", "started", 5, "#112233", some "review desc", ⟨"team-1"⟩⟩⟩

/-- A remote that answers every call successfully: create and update echo
their input (create assigns id `srv-id`), get returns `getResponse1`, find
returns the single node `ws1`. -/
def okApi : RemoteApi where
  createWorkflowState := fun input =>
    .ok ⟨⟨⟨"srv-id", input.name, input.type, input.position, input.color, input.description⟩⟩⟩
  getWorkflowState := fun _ => .ok getResponse1
  updateWorkflowState := fun input _ =>
    .ok ⟨⟨⟨input.name, input.position, input.color, input.description⟩⟩⟩
  deleteWorkflowState := fun _ => .ok ()
  findWorkflowState := fun _ _ => .ok ⟨⟨[⟨"ws1"⟩]⟩⟩

namespace WorkflowStateResource

/-- C5: when the remote call of a Create, Read, Update or Delete invocation
errors, the operation surfaces exactly one Client Error diagnostic, makes no
further remote call (its call list is just the failing call), and leaves the
stored resource state unchanged. -/
theorem crud_remote_error_atomic (float64 : ℚ → ℚ × Accuracy) (api : RemoteApi)
    (data : WorkflowStateResourceModel) (prior : Option WorkflowStateResourceModel) :
    (∀ err, api.createWorkflowState (mkCreateInput float64 data) = .error err →
      Create float64 api data prior =
        { diagnostics := [.clientError ("Unable to create workflow state, got error: " ++ err)]
          state := prior
          calls := [.createCall (mkCreateInput float64 data)] }) ∧
    (∀ err, api.getWorkflowState data.id = .error err →
      Read api data =
        { diagnostics := [.clientError ("Unable to read workflow state, got error: " ++ err)]
          state := some data
          calls := [.getCall data.id] }) ∧
    (∀ err, api.updateWorkflowState (mkUpdateInput float64 data) data.id = .error err →
      Update float64 api data prior =
        { diagnostics := [.clientError ("Unable to update workflow state, got error: " ++ err)]
          state := prior
          calls := [.updateCall (mkUpdateInput float64 data) data.id] }) ∧
    (∀ err, api.deleteWorkflowState data.id = .error err →
      Delete api data =
        { diagnostics := [.clientError ("Unable to delete workflow state, got error: " ++ err)]
          state := some data
          calls := [.deleteCall data.id] }) := by
  refine ⟨?_, ?_, ?_, ?_⟩
  · intro err h
    simp only [Create]
    rw [h]
  · intro err h
    unfold Read
    rw [h]
  · intro err h
    simp only [Update]
    rw [h]
  · intro err h
    unfold Delete
    rw [h]

/-- Witness for C5: against a remote that fails every call, each of the four
operations on the sample record yields the single Client Error outcome. -/
theorem crud_remote_error_atomic_witness :
    Create f64exact errApi m0 (some m0) =
      { diagnostics := [.clientError ("Unable to create workflow state, got error: " ++ "boom")]
        state := some m0
        calls := [.createCall (mkCreateInput f64exact m0)] } ∧
    Read errApi m0 =
      { diagnostics := [.clientError ("Unable to read workflow state, got error: " ++ "boom")]
        state := some m0
        calls := [.getCall m0.id] } ∧
    Update f64exact errApi m0 (some m0) =
      { diagnostics := [.clientError ("Unable to update workflow state, got error: " ++ "boom")]
        state := some m0
        calls := [.updateCall (mkUpdateInput f64exact m0) m0.id] } ∧
    Delete errApi m0 =
      { diagnostics := [.clientError ("Unable to delete workflow state, got error: " ++ "boom")]
        state := some m0
        calls := [.deleteCall m0.id] } := by
  have h := crud_remote_error_atomic f64exact errApi m0 (some m0)
  exact ⟨h.1 "boom" rfl, h.2.1 "boom" rfl, h.2.2.1 "boom" rfl, h.2.2.2 "boom" rfl⟩

/-- C4: a Read whose remote read-by-id succeeds overwrites every field except
id with values from the response, with team_id re-derived from the
response's nested team reference; a Read whose remote call errors surfaces a
Client Error and keeps the resource in state unchanged. -/
theorem read_overwrites_all_but_id (api : RemoteApi) (data : WorkflowStateResourceModel) :
    (∀ response, api.getWorkflowState data.id = .ok response →
      (Read api data).diagnostics = [] ∧
      (Read api data).state = some
        { id := data.id
          name := response.workflowState.name
          type := response.workflowState.type
          description := response.workflowState.description
          color := response.workflowState.color
          position := response.workflowState.position
          teamId := response.workflowState.team.id }) ∧
    (∀ err, api.getWorkflowState data.id = .error err →
      (Read api data).diagnostics =
        [.clientError ("Unable to read workflow state, got error: " ++ err)] ∧
      (Read api data).state = some data) := by
  refine ⟨?_, ?_⟩
  · intro response h
    unfold Read
    rw [h]
    exact ⟨rfl, rfl⟩
  · intro err h
    unfold Read
    rw [h]
    exact ⟨rfl, rfl⟩

/-- Witness for C4: a successful Read of the sample record against `okApi`
replaces every field except id with `getResponse1`'s values, and a failing
Read keeps the record. -/
theorem read_overwrites_all_but_id_witness :
    (Read okApi m0).diagnostics = [] ∧
    (Read okApi m0).state = some
      { id := "wsid-0"
        name := "In Review"
        type := "started"
        description := some "review desc"
        color := "#112233"
        position := 5
        teamId := "team-1" } ∧
    (Read errApi m0).state = some m0 :=
  ⟨((read_overwrites_all_but_id okApi m0).1 getResponse1 rfl).1,
   ((read_overwrites_all_but_id okApi m0).1 getResponse1 rfl).2,
   ((read_overwrites_all_but_id errApi m0).2 "boom" rfl).2⟩

end WorkflowStateResource

namespace WorkflowStateResource

/-- C3: the update input sent to the remote update-by-id call carries exactly
name, color, description and position — built from the plan's values and the
narrowed position, unaffected by the plan's type and team_id; on success only
name, position, color and description are refreshed in state from the
response while type and team_id keep their planned values; and the schema
marks type and team_id as requires-replace, so changing them forces
replacement instead of an in-place update. -/
theorem update_sends_only_mutable_fields (float64 : ℚ → ℚ × Accuracy) (api : RemoteApi)
    (data : WorkflowStateResourceModel) (prior : Option WorkflowStateResourceModel) :
    mkUpdateInput float64 data =
      { name := data.name
        color := data.color
        description := data.description
        position := (float64 data.position).1 } ∧
    (∀ t k, mkUpdateInput float64 { data with type := t, teamId := k } =
      mkUpdateInput float64 data) ∧
    (Update float64 api data prior).calls =
      [.updateCall (mkUpdateInput float64 data) data.id] ∧
    (∀ response, api.updateWorkflowState (mkUpdateInput float64 data) data.id = .ok response →
      (Update float64 api data prior).state = some
        { data with
          name := response.workflowStateUpdate.workflowState.name
          position := response.workflowStateUpdate.workflowState.position
          color := response.workflowStateUpdate.workflowState.color
          description := response.workflowStateUpdate.workflowState.description }) ∧
    PlanModifier.requiresReplace ∈ attrPlanModifiers "type" ∧
    PlanModifier.requiresReplace ∈ attrPlanModifiers "team_id" := by
  refine ⟨rfl, fun t k => rfl, ?_, ?_, by decide, by decide⟩
  · simp only [Update]
    cases api.updateWorkflowState (mkUpdateInput float64 data) data.id <;> rfl
  · intro response h
    simp only [Update]
    rw [h]

/-- Witness for C3: updating the sample record against the echoing `okApi`
keeps type and team_id at their planned values and refreshes the mutable
fields from the response. -/
theorem update_sends_only_mutable_fields_witness :
    (Update f64exact okApi m0 (some m0)).state = some
      { m0 with
        name := (mkUpdateInput f64exact m0).name
        position := (mkUpdateInput f64exact m0).position
        color := (mkUpdateInput f64exact m0).color
        description := (mkUpdateInput f64exact m0).description } :=
  (update_sends_only_mutable_fields f64exact okApi m0 (some m0)).2.2.2.1
    ⟨⟨⟨(mkUpdateInput f64exact m0).name, (mkUpdateInput f64exact m0).position,
       (mkUpdateInput f64exact m0).color, (mkUpdateInput f64exact m0).description⟩⟩⟩ rfl

/-- C9: the input sent to the remote create call carries no id — it is
unaffected by the plan's id value — and on success the id stored in state is
exactly the server-assigned id from the response. -/
theorem create_id_is_server_assigned (float64 : ℚ → ℚ × Accuracy) (api : RemoteApi)
    (data : WorkflowStateResourceModel) (prior : Option WorkflowStateResourceModel) :
    (∀ x, mkCreateInput float64 { data with id := x } = mkCreateInput float64 data) ∧
    (∀ response, api.createWorkflowState (mkCreateInput float64 data) = .ok response →
      ∃ st, (Create float64 api data prior).state = some st ∧
        st.id = response.workflowStateCreate.workflowState.id) := by
  refine ⟨fun x => rfl, ?_⟩
  intro response h
  simp only [Create]
  rw [h]
  exact ⟨_, rfl, rfl⟩

/-- Witness for C9: creating the sample record against `okApi` stores the
server-assigned id `srv-id`. -/
theorem create_id_is_server_assigned_witness :
    ∃ st, (Create f64exact okApi m0 none).state = some st ∧ st.id = "srv-id" :=
  (create_id_is_server_assigned f64exact okApi m0 none).2
    ⟨⟨⟨"srv-id", (mkCreateInput f64exact m0).name, (mkCreateInput f64exact m0).type,
       (mkCreateInput f64exact m0).position, (mkCreateInput f64exact m0).color,
       (mkCreateInput f64exact m0).description⟩⟩⟩ rfl

/-- C10: on a successful Create, id, name, type, position, color and
description in state come from the remote response, while team_id stays the
client-supplied planned value — the create response carries no team
information and Create never reads any. -/
theorem create_keeps_planned_team_id (float64 : ℚ → ℚ × Accuracy) (api : RemoteApi)
    (data : WorkflowStateResourceModel) (prior : Option WorkflowStateResourceModel)
    (response : CreateWorkflowStateResponse)
    (h : api.createWorkflowState (mkCreateInput float64 data) = .ok response) :
    (Create float64 api data prior).state = some
      { id := response.workflowStateCreate.workflowState.id
        name := response.workflowStateCreate.workflowState.name
        type := response.workflowStateCreate.workflowState.type
        description := response.workflowStateCreate.workflowState.description
        color := response.workflowStateCreate.workflowState.color
        position := response.workflowStateCreate.workflowState.position
        teamId := data.teamId } := by
  simp only [Create]
  rw [h]

/-- Witness for C10: creating the sample record against `okApi` stores the
echoed fields and the planned team id. -/
theorem create_keeps_planned_team_id_witness :
    (Create f64exact okApi m0 none).state = some
      { id := "srv-id"
        name := m0.name
        type := m0.type
        description := m0.description
        color := m0.color
        position := m0.position
        teamId := m0.teamId } :=
  create_keeps_planned_team_id f64exact okApi m0 none
    ⟨⟨⟨"srv-id", (mkCreateInput f64exact m0).name, (mkCreateInput f64exact m0).type,
       (mkCreateInput f64exact m0).position, (mkCreateInput f64exact m0).color,
       (mkCreateInput f64exact m0).description⟩⟩⟩ rfl

/-- C8: the position transmitted on the wire by Create and Update equals the
float64 narrowing of the locally stored arbitrary-precision value, and the
accuracy result of the narrowing is discarded — the behaviour of both
operations is unchanged under any accuracy outcome, so precision loss never
surfaces as an error. -/
theorem position_narrowed_accuracy_discarded (narrow : ℚ → ℚ) (a1 a2 : Accuracy)
    (api : RemoteApi) (data : WorkflowStateResourceModel)
    (prior : Option WorkflowStateResourceModel) :
    (mkCreateInput (fun q => (narrow q, a1)) data).position = narrow data.position ∧
    (mkUpdateInput (fun q => (narrow q, a1)) data).position = narrow data.position ∧
    Create (fun q => (narrow q, a1)) api data prior =
      Create (fun q => (narrow q, a2)) api data prior ∧
    Update (fun q => (narrow q, a1)) api data prior =
      Update (fun q => (narrow q, a2)) api data prior :=
  ⟨rfl, rfl, rfl, rfl⟩

end WorkflowStateResource

namespace WorkflowStateResource

/-- The create response of a remote that stores the submitted input and
assigns it the id `newId`, echoing the stored values back. -/
def echoCreateResponse (newId : String) (input : WorkflowStateCreateInput) :
    CreateWorkflowStateResponse :=
  ⟨⟨⟨newId, input.name, input.type, input.position, input.color, input.description⟩⟩⟩

/-- The read response of a remote that echoes back the stored create input,
with the team reference derived from the stored team id. -/
def echoGetResponse (input : WorkflowStateCreateInput) : GetWorkflowStateResponse :=
  ⟨⟨input.name, input.type, input.position, input.color, input.description, ⟨input.teamId⟩⟩⟩

/-- C7: for a valid input whose position is exactly representable as a
float64 (the narrowing returns it unchanged), a successful Create followed by
a successful Read against a remote that echoes stored values yields a record
whose name, type, color, description and team_id are identical to the
created values and whose position equals the created position. -/
theorem create_then_read_roundtrip (float64 : ℚ → ℚ × Accuracy) (api : RemoteApi)
    (data : WorkflowStateResourceModel) (newId : String)
    (hrepr : (float64 data.position).1 = data.position)
    (hc : api.createWorkflowState (mkCreateInput float64 data) =
      .ok (echoCreateResponse newId (mkCreateInput float64 data)))
    (hg : api.getWorkflowState newId = .ok (echoGetResponse (mkCreateInput float64 data))) :
    ∃ st1 st2, (Create float64 api data none).state = some st1 ∧
      (Read api st1).state = some st2 ∧
      st2.name = data.name ∧ st2.type = data.type ∧ st2.color = data.color ∧
      st2.description = data.description ∧ st2.teamId = data.teamId ∧
      st2.position = data.position := by
  have hc1 : (Create float64 api data none).state =
      some ⟨newId, data.name, data.type, data.description, data.color,
            (float64 data.position).1, data.teamId⟩ := by
    simp only [Create]
    rw [hc]
    rfl
  have hr1 : (Read api ⟨newId, data.name, data.type, data.description, data.color,
      (float64 data.position).1, data.teamId⟩).state =
      some ⟨newId, data.name, data.type, data.description, data.color,
            (float64 data.position).1, data.teamId⟩ := by
    simp only [Read]
    rw [hg]
    rfl
  exact ⟨_, _, hc1, hr1, rfl, rfl, rfl, rfl, rfl, hrepr⟩

/-- A remote echoing the sample record's create input: create assigns
`srv-id` and echoes, get returns the stored values. -/
def roundtripApi : RemoteApi where
  createWorkflowState := fun input => .ok (echoCreateResponse "srv-id" input)
  getWorkflowState := fun _ => .ok (echoGetResponse (mkCreateInput f64exact m0))
  updateWorkflowState := fun _ _ => .error "unused"
  deleteWorkflowState := fun _ => .error "unused"
  findWorkflowState := fun _ _ => .error "unused"

/-- Witness for C7: creating then reading the sample record against the
echoing remote returns all created values. -/
theorem create_then_read_roundtrip_witness :
    ∃ st1 st2, (Create f64exact roundtripApi m0 none).state = some st1 ∧
      (Read roundtripApi st1).state = some st2 ∧
      st2.name = m0.name ∧ st2.type = m0.type ∧ st2.color = m0.color ∧
      st2.description = m0.description ∧ st2.teamId = m0.teamId ∧
      st2.position = m0.position :=
  create_then_read_roundtrip f64exact roundtripApi m0 "srv-id" rfl rfl rfl

/-- The validators the schema declares for `name`. -/
theorem attrValidators_name : attrValidators "name" = [.utf8LengthAtLeast 1] := rfl

/-- The validators the schema declares for `type`. -/
theorem attrValidators_type : attrValidators "type" =
    [.oneOf ["triage", "backlog", "unstarted", "started", "completed", "canceled"]] := rfl

/-- The validators the schema declares for `color`. -/
theorem attrValidators_color : attrValidators "color" =
    [.regexMatches colorRegexMatches "must be a hex color"] := rfl

/-- The validators the schema declares for `team_id`. -/
theorem attrValidators_team_id : attrValidators "team_id" =
    [.regexMatches uuidRegexMatches "must be an uuid"] := rfl

/-- C6: a config whose name is empty, whose type is outside the six-value
enumeration, whose color fails the hex-color pattern, or whose team_id fails
the UUID pattern is rejected by the declarative validators with a schema
validation error, the stored state is untouched and no remote call is made. -/
theorem schema_validators_reject (float64 : ℚ → ℚ × Accuracy) (api : RemoteApi)
    (data : WorkflowStateResourceModel) (prior : Option WorkflowStateResourceModel)
    (h : data.name = "" ∨
      (["triage", "backlog", "unstarted", "started", "completed",
        "canceled"] : List String).contains data.type = false ∨
      colorRegexMatches data.color = false ∨
      uuidRegexMatches data.teamId = false) :
    (applyCreate float64 api data prior).calls = [] ∧
    (applyCreate float64 api data prior).state = prior ∧
    ∃ a m, Diag.schemaValidationError a m ∈ (applyCreate float64 api data prior).diagnostics := by
  have hmem : ∃ a m, Diag.schemaValidationError a m ∈ validateConfig data := by
    rcases h with hn | ht | hcol | hteam
    · refine ⟨"name", "string length below minimum", ?_⟩
      have e : validateAttr "name" data.name =
          [Diag.schemaValidationError "name" "string length below minimum"] := by
        rw [hn]
        decide
      simp [validateConfig, e]
    · refine ⟨"type", "value must be one of", ?_⟩
      have e : validateAttr "type" data.type =
          [Diag.schemaValidationError "type" "value must be one of"] := by
        simp only [validateAttr, attrValidators_type, List.map, List.flatten, runValidator]
        rw [ht]
        simp
      simp [validateConfig, e]
    · refine ⟨"color", "must be a hex color", ?_⟩
      have e : validateAttr "color" data.color =
          [Diag.schemaValidationError "color" "must be a hex color"] := by
        simp [validateAttr, attrValidators_color, runValidator, hcol]
      simp [validateConfig, e]
    · refine ⟨"team_id", "must be an uuid", ?_⟩
      have e : validateAttr "team_id" data.teamId =
          [Diag.schemaValidationError "team_id" "must be an uuid"] := by
        simp [validateAttr, attrValidators_team_id, runValidator, hteam]
      simp [validateConfig, e]
  obtain ⟨a, m, hm⟩ := hmem
  rcases hval : validateConfig data with _ | ⟨d, rest⟩
  · rw [hval] at hm
    simp at hm
  · rw [hval] at hm
    refine ⟨?_, ?_, a, m, ?_⟩
    · simp only [applyCreate, hval]
    · simp only [applyCreate, hval]
    · simp only [applyCreate, hval]
      exact hm

/-- Witness for C6: the sample record with color `"blue"` is rejected before
any remote call. -/
theorem schema_validators_reject_witness :
    (applyCreate f64exact errApi { m0 with color := "blue" } none).calls = [] ∧
    (applyCreate f64exact errApi { m0 with color := "blue" } none).state = none ∧
    ∃ a m, Diag.schemaValidationError a m ∈
      (applyCreate f64exact errApi { m0 with color := "blue" } none).diagnostics :=
  schema_validators_reject f64exact errApi { m0 with color := "blue" } none
    (Or.inr (Or.inr (Or.inl (by decide))))

end WorkflowStateResource
